import Mathlib

/-!
Verification of the rotating log writer (`writer.go`, package `zaphelper`).

The Go code is embedded shallowly.  `Writer` mirrors the Go struct (the
mutex is dropped: all operations here are sequential, the lock only
serializes them).  The operating system is abstracted as an `Env` of
outcome functions (stat, openFile, mkdirAll, close, write), matching the
"mockable osStat" pattern the source itself uses for tests.  Every
operation returns its new writer state, its Go return values, and the
ordered trace of OS calls it made, so that "never attempts X" properties
are directly statable.
-/

namespace Zaphelper

/-- OS file handle, abstracted as a number. -/
abbrev Handle := Nat

/-- Go `error` values as produced and consumed by writer.go: a base OS
error (with a distinguished not-exist case recognized by `os.IsNotExist`),
wrapping via `errors.Wrap(err, msg)`, and a nil-pointer panic marker. -/
inductive Err where
  | notExistErr : Err
  | os (code : Nat) : Err
  | wrap (msg : String) (e : Err) : Err
  | nilDeref : Err
deriving DecidableEq

/-- Go `os.IsNotExist` on a non-nil error. -/
def Err.isNotExist : Err → Bool
  | .notExistErr => true
  | _ => false

/-- Go `os.IsNotExist` on a possibly-nil error (`os.IsNotExist(nil)` is false). -/
def isNotExistOpt : Option Err → Bool
  | none => false
  | some e => e.isNotExist

/-- The open-flag bits writer.go uses in `os.OpenFile` calls
(`O_CREATE`, `O_WRONLY`, `O_APPEND`), plus `O_TRUNC`, which the source
never sets but which matters for whether an open truncates. -/
structure Flags where
  create : Bool
  wronly : Bool
  append : Bool
  trunc : Bool
deriving DecidableEq

/-- `os.O_CREATE|os.O_WRONLY|os.O_APPEND`, the flags of `openNew`. -/
def createFlags : Flags := ⟨true, true, true, false⟩

/-- `os.O_APPEND|os.O_WRONLY`, the flags of the append-reuse open in
`openExistingOrNew`. -/
def appendFlags : Flags := ⟨false, true, true, false⟩

/-- One OS call made by the writer, with its arguments. -/
inductive OsCall where
  | stat (path : String) : OsCall
  | openFile (path : String) (flags : Flags) (mode : Nat) : OsCall
  | mkdirAll (path : String) (mode : Nat) : OsCall
  | closeFile (h : Handle) : OsCall
  | writeFile (h : Handle) (p : List Nat) : OsCall
deriving DecidableEq

/-- Whether a call is an `os.OpenFile` call. -/
def OsCall.isOpen : OsCall → Bool
  | .openFile _ _ _ => true
  | _ => false

/-- Whether a call is an underlying file write. -/
def OsCall.isWrite : OsCall → Bool
  | .writeFile _ _ => true
  | _ => false

/-- Outcomes the operating system gives to each primitive call.  `stat`
returns the error component of `os.Stat` (`none` = file exists);
`openFile` mirrors `os.OpenFile`; `mkdirAll` mirrors `os.MkdirAll`
(`none` = success); `closeFile` mirrors `File.Close`; `writeFile`
mirrors `File.Write`, returning the Go `(n, err)` pair. -/
structure Env where
  stat : String → Option Err
  openFile : String → Flags → Nat → Except Err Handle
  mkdirAll : String → Nat → Option Err
  closeFile : Handle → Option Err
  writeFile : Handle → List Nat → Nat × Option Err

/-- Ambient process facts and the path library used by `filename`
(`os.TempDir`, `os.Args[0]`, `filepath.Base`, `filepath.Join`,
`filepath.Dir`), abstracted like the OS itself. -/
structure Sys where
  tempDir : String
  arg0 : String
  base : String → String
  join : String → String → String
  dirOf : String → String

/-- The Go `Writer` struct: configured `Filename` and the current file
handle (`nil` in Go = `none` here).  The mutex is omitted. -/
structure Writer where
  Filename : String
  file : Option Handle
deriving DecidableEq

/-- Result of a state-mutating operation that returns `error` in Go:
new writer state, returned error, and the trace of OS calls made. -/
structure OpResult where
  w : Writer
  err : Option Err
  trace : List OsCall
deriving DecidableEq

/-- Result of `Write`: new writer state, the Go `(n, err)` pair, and the
trace of OS calls made. -/
structure WriteResult where
  w : Writer
  n : Nat
  err : Option Err
  trace : List OsCall
deriving DecidableEq

/-- Go `func (w *Writer) filename() string`: the configured `Filename`
verbatim if non-empty, otherwise
`filepath.Join(os.TempDir(), filepath.Base(os.Args[0]) + "-zap.log")`. -/
def Writer.filename (sys : Sys) (w : Writer) : String :=
  if w.Filename ≠ "" then w.Filename
  else sys.join sys.tempDir (sys.base sys.arg0 ++ "-zap.log")

/-- Go `func (w *Writer) dir() string`: `filepath.Dir(w.filename())`. -/
def Writer.dir (sys : Sys) (w : Writer) : String :=
  sys.dirOf (w.filename sys)

/-- Go `func (w *Writer) openNew() error`: `os.MkdirAll(w.dir(), 0744)`,
then `os.OpenFile(name, O_CREATE|O_WRONLY|O_APPEND, 0644)`; on success
the handle becomes `w.file`; each failure is wrapped and returned with
the state unchanged. -/
def Writer.openNew (sys : Sys) (env : Env) (w : Writer) : OpResult :=
  match env.mkdirAll (w.dir sys) 0o744 with
  | some e =>
    ⟨w, some (.wrap "can't make directories for new logfile" e),
      [.mkdirAll (w.dir sys) 0o744]⟩
  | none =>
    match env.openFile (w.filename sys) createFlags 0o644 with
    | .error e =>
      ⟨w, some (.wrap "can't open new logfile" e),
        [.mkdirAll (w.dir sys) 0o744,
         .openFile (w.filename sys) createFlags 0o644]⟩
    | .ok f =>
      ⟨{ w with file := some f }, none,
        [.mkdirAll (w.dir sys) 0o744,
         .openFile (w.filename sys) createFlags 0o644]⟩

/-- Go `func (w *Writer) openExistingOrNew(writeLen int) error`:
stat the target; if it does not exist, `openNew`; on another stat error,
wrap and return it; otherwise try `os.OpenFile(filename,
O_APPEND|O_WRONLY, 0644)` and on any failure fall back to `openNew`.
`writeLen` is accepted and unused, as in the source. -/
def Writer.openExistingOrNew (sys : Sys) (env : Env) (w : Writer)
    (_writeLen : Nat) : OpResult :=
  if isNotExistOpt (env.stat (w.filename sys)) then
    let r := w.openNew sys env
    ⟨r.w, r.err, .stat (w.filename sys) :: r.trace⟩
  else
    match env.stat (w.filename sys) with
    | some e =>
      ⟨w, some (.wrap "error getting log file info" e),
        [.stat (w.filename sys)]⟩
    | none =>
      match env.openFile (w.filename sys) appendFlags 0o644 with
      | .error _ =>
        let r := w.openNew sys env
        ⟨r.w, r.err,
          [.stat (w.filename sys),
           .openFile (w.filename sys) appendFlags 0o644] ++ r.trace⟩
      | .ok f =>
        ⟨{ w with file := some f }, none,
          [.stat (w.filename sys),
           .openFile (w.filename sys) appendFlags 0o644]⟩

/-- Go `func (w *Writer) close() error`: nothing if no file is open;
otherwise close the handle, set `w.file = nil`, return the close error. -/
def Writer.close (env : Env) (w : Writer) : OpResult :=
  match w.file with
  | none => ⟨w, none, []⟩
  | some f => ⟨{ w with file := none }, env.closeFile f, [.closeFile f]⟩

/-- Go `func (w *Writer) Close() error`: lock, then `close`. -/
def Writer.Close (env : Env) (w : Writer) : OpResult :=
  w.close env

/-- Go `func (w *Writer) rotate() error`: `close` (on failure, wrap
"close old file failed." and return), then `openNew` (on failure, wrap
"open new file failed." and return). -/
def Writer.rotate (sys : Sys) (env : Env) (w : Writer) : OpResult :=
  let r1 := w.close env
  match r1.err with
  | some e => ⟨r1.w, some (.wrap "close old file failed." e), r1.trace⟩
  | none =>
    let r2 := r1.w.openNew sys env
    match r2.err with
    | some e =>
      ⟨r2.w, some (.wrap "open new file failed." e), r1.trace ++ r2.trace⟩
    | none => ⟨r2.w, none, r1.trace ++ r2.trace⟩

/-- Go `func (w *Writer) Rotate() error`: lock, then `rotate`. -/
def Writer.Rotate (sys : Sys) (env : Env) (w : Writer) : OpResult :=
  w.rotate sys env

/-- Go `func (w *Writer) Write(p []byte) (n int, err error)`: if no file
is open, `openExistingOrNew(len(p))` and on failure return `(0, err)`;
then `w.file.Write(p)`, whose `(n, err)` is returned verbatim.  The
`nilDeref` arm mirrors the nil-pointer panic Go would hit if the open
step succeeded without installing a handle; it is proved unreachable. -/
def Writer.Write (sys : Sys) (env : Env) (w : Writer) (p : List Nat) :
    WriteResult :=
  match w.file with
  | none =>
    let r := w.openExistingOrNew sys env p.length
    match r.err with
    | some e => ⟨r.w, 0, some e, r.trace⟩
    | none =>
      match r.w.file with
      | some f =>
        ⟨r.w, (env.writeFile f p).1, (env.writeFile f p).2,
          r.trace ++ [.writeFile f p]⟩
      | none => ⟨r.w, 0, some .nilDeref, r.trace⟩
  | some f =>
    ⟨w, (env.writeFile f p).1, (env.writeFile f p).2, [.writeFile f p]⟩

/-!
Concrete environments, used by witnesses and counterexamples.
-/

/-- A concrete `Sys`: temp dir `/tmp`, executable `/bin/myapp`, and a
simple path library. -/
def sys0 : Sys :=
  ⟨"/tmp", "/bin/myapp", fun _ => "myapp", fun a b => a ++ "/" ++ b,
    fun _ => "/var/log"⟩

/-- A healthy OS: every call succeeds; opening yields handle 7; a write
reports the full length written. -/
def env0 : Env :=
  ⟨fun _ => none, fun _ _ _ => .ok 7, fun _ _ => none, fun _ => none,
    fun _ p => (p.length, none)⟩

/-- Like `env0` but closing a handle fails with OS error 5. -/
def envCloseFail : Env := { env0 with closeFile := fun _ => some (.os 5) }

/-- Like `env0` but `stat` fails with a non-not-exist OS error 13. -/
def envStatFail : Env := { env0 with stat := fun _ => some (.os 13) }

/-- Like `env0` but any append-mode (non-create) open fails with OS
error 13 (e.g. permission denied), while the create open succeeds with
handle 9. -/
def envAppendFail : Env :=
  { env0 with openFile := fun _ fl _ =>
      if fl = appendFlags then .error (.os 13) else .ok 9 }

/-- Like `env0` but every open fails with OS error 13. -/
def envOpenFail : Env :=
  { env0 with openFile := fun _ _ _ => .error (.os 13) }

/-- A writer with a configured path and an open handle 3. -/
def wOpen : Writer := ⟨"/var/log/app.log", some 3⟩

/-- A writer with a configured path and no open handle. -/
def wNone : Writer := ⟨"/var/log/app.log", none⟩

/-!
Interpreting a trace on a concrete filesystem, to observe whether an
open produced a fresh file.  Standard POSIX semantics of the open-flag
bits: `O_TRUNC` empties an existing file, `O_CREATE` creates an empty
file only when the path is absent, and otherwise (append mode) the
existing content is kept.
-/

/-- A filesystem: association list from path to file content, newest
binding first. -/
def FS := List (String × List Nat)

/-- Content at a path, if the file exists. -/
def fsGet (fs : FS) (path : String) : Option (List Nat) :=
  (List.find? (fun q => q.1 == path) fs).map (fun q => q.2)

/-- Set the content at a path. -/
def fsSet (fs : FS) (path : String) (c : List Nat) : FS :=
  (path, c) :: fs

/-- Effect of one OS call on the filesystem, per the POSIX meaning of
the open flags; calls other than opens leave the contents unchanged
(a close writes nothing, and no `writeFile` call occurs in the traces
this is applied to). -/
def applyCall (fs : FS) (c : OsCall) : FS :=
  match c with
  | .openFile path fl _ =>
    match fsGet fs path with
    | some _ => if fl.trunc then fsSet fs path [] else fs
    | none => if fl.create then fsSet fs path [] else fs
  | _ => fs

/-- Run a whole trace on a filesystem. -/
def runTrace (fs : FS) (tr : List OsCall) : FS :=
  tr.foldl applyCall fs

/-!
Helper lemmas shared by the claim theorems.
-/

/-- `close` always leaves the handle absent. -/
theorem close_file_none (env : Env) (w : Writer) :
    (Writer.close env w).w.file = none := by
  unfold Writer.close
  cases hf : w.file <;> simp [hf]

/-- `close` never touches `Filename`. -/
theorem close_Filename (env : Env) (w : Writer) :
    (Writer.close env w).w.Filename = w.Filename := by
  unfold Writer.close
  cases hf : w.file <;> simp [hf]

/-- `close` of a closed writer does nothing and returns no error. -/
theorem close_of_none (env : Env) (w : Writer) (h : w.file = none) :
    Writer.close env w = ⟨w, none, []⟩ := by
  unfold Writer.close
  simp [h]

/-- `openNew` never touches `Filename`. -/
theorem openNew_Filename (sys : Sys) (env : Env) (w : Writer) :
    (Writer.openNew sys env w).w.Filename = w.Filename := by
  unfold Writer.openNew
  cases hm : env.mkdirAll (w.dir sys) 0o744 with
  | some e => simp
  | none =>
    cases ho : env.openFile (w.filename sys) createFlags 0o644 <;> simp

/-- `openNew` on failure leaves the writer unchanged. -/
theorem openNew_err_unchanged (sys : Sys) (env : Env) (w : Writer)
    (e : Err) (h : (Writer.openNew sys env w).err = some e) :
    (Writer.openNew sys env w).w = w := by
  unfold Writer.openNew at *
  cases hm : env.mkdirAll (w.dir sys) 0o744 <;> simp [hm] at h ⊢
  cases ho : env.openFile (w.filename sys) createFlags 0o644 <;>
    simp [ho] at h ⊢

/-- `openNew` on success installs exactly the handle the create-mode
open returned. -/
theorem openNew_ok_file (sys : Sys) (env : Env) (w : Writer)
    (h : (Writer.openNew sys env w).err = none) :
    ∃ f, (Writer.openNew sys env w).w.file = some f ∧
      env.openFile (w.filename sys) createFlags 0o644 = .ok f := by
  unfold Writer.openNew at *
  cases hm : env.mkdirAll (w.dir sys) 0o744 <;> simp [hm] at h ⊢
  cases ho : env.openFile (w.filename sys) createFlags 0o644 <;>
    simp [ho] at h ⊢

/-- Every open in an `openNew` trace is the create-mode open of the
target path. -/
theorem openNew_trace_opens (sys : Sys) (env : Env) (w : Writer) :
    ∀ c ∈ (Writer.openNew sys env w).trace, c.isOpen = true →
      c = .openFile (w.filename sys) createFlags 0o644 := by
  unfold Writer.openNew
  cases hm : env.mkdirAll (w.dir sys) 0o744 <;> simp [hm, OsCall.isOpen]
  cases ho : env.openFile (w.filename sys) createFlags 0o644 <;>
    simp [ho, OsCall.isOpen]

/-- A successful `openNew` records its create-mode open in the trace. -/
theorem openNew_ok_trace_mem (sys : Sys) (env : Env) (w : Writer)
    (h : (Writer.openNew sys env w).err = none) :
    OsCall.openFile (w.filename sys) createFlags 0o644 ∈
      (Writer.openNew sys env w).trace := by
  unfold Writer.openNew at *
  cases hm : env.mkdirAll (w.dir sys) 0o744 <;> simp [hm] at h ⊢
  cases ho : env.openFile (w.filename sys) createFlags 0o644 <;>
    simp [ho] at h ⊢

/-- `filename` ignores the handle field. -/
theorem filename_file_irrel (sys : Sys) (w : Writer) (x : Option Handle) :
    Writer.filename sys { w with file := x } = Writer.filename sys w := rfl

/-- `filename` depends only on the `Filename` field. -/
theorem filename_congr (sys : Sys) (w w2 : Writer)
    (h : w.Filename = w2.Filename) :
    Writer.filename sys w = Writer.filename sys w2 := by
  unfold Writer.filename
  rw [h]

/-- A `close` trace contains no open call. -/
theorem close_trace_no_open (env : Env) (w : Writer) :
    ∀ c ∈ (Writer.close env w).trace, c.isOpen = false := by
  unfold Writer.close
  cases hf : w.file <;> simp [hf, OsCall.isOpen]

/-- An `openNew` trace contains no underlying write call. -/
theorem openNew_trace_no_write (sys : Sys) (env : Env) (w : Writer) :
    ∀ c ∈ (Writer.openNew sys env w).trace, c.isWrite = false := by
  unfold Writer.openNew
  cases hm : env.mkdirAll (w.dir sys) 0o744 <;> simp [hm, OsCall.isWrite]
  cases ho : env.openFile (w.filename sys) createFlags 0o644 <;>
    simp [ho, OsCall.isWrite]

/-- `openExistingOrNew` never touches `Filename`. -/
theorem openEON_Filename (sys : Sys) (env : Env) (w : Writer) (len : Nat) :
    (Writer.openExistingOrNew sys env w len).w.Filename = w.Filename := by
  unfold Writer.openExistingOrNew
  cases hs : env.stat (w.filename sys) with
  | none =>
    cases ho : env.openFile (w.filename sys) appendFlags 0o644 <;>
      simp [isNotExistOpt, ho, openNew_Filename]
  | some e =>
    cases hni : e.isNotExist <;>
      simp [isNotExistOpt, hni, openNew_Filename]

/-- `openExistingOrNew` on failure leaves the writer unchanged. -/
theorem openEON_err_unchanged (sys : Sys) (env : Env) (w : Writer)
    (len : Nat) (e : Err)
    (h : (Writer.openExistingOrNew sys env w len).err = some e) :
    (Writer.openExistingOrNew sys env w len).w = w := by
  revert h
  unfold Writer.openExistingOrNew
  cases hs : env.stat (w.filename sys) with
  | none =>
    cases ho : env.openFile (w.filename sys) appendFlags 0o644 <;>
      simp [isNotExistOpt, ho]
    intro h
    exact openNew_err_unchanged sys env w e h
  | some e2 =>
    cases hni : e2.isNotExist <;> simp [isNotExistOpt, hni]
    intro h
    exact openNew_err_unchanged sys env w e h

/-- `openExistingOrNew` on success installs a handle. -/
theorem openEON_ok_file (sys : Sys) (env : Env) (w : Writer) (len : Nat)
    (h : (Writer.openExistingOrNew sys env w len).err = none) :
    ∃ f, (Writer.openExistingOrNew sys env w len).w.file = some f := by
  revert h
  unfold Writer.openExistingOrNew
  cases hs : env.stat (w.filename sys) with
  | none =>
    cases ho : env.openFile (w.filename sys) appendFlags 0o644 <;>
      simp [isNotExistOpt, ho]
    intro h
    obtain ⟨f, hf, _⟩ := openNew_ok_file sys env w h
    exact ⟨f, hf⟩
  | some e2 =>
    cases hni : e2.isNotExist <;> simp [isNotExistOpt, hni]
    intro h
    obtain ⟨f, hf, _⟩ := openNew_ok_file sys env w h
    exact ⟨f, hf⟩

/-- An `openExistingOrNew` trace contains no underlying write call. -/
theorem openEON_trace_no_write (sys : Sys) (env : Env) (w : Writer)
    (len : Nat) :
    ∀ c ∈ (Writer.openExistingOrNew sys env w len).trace,
      c.isWrite = false := by
  unfold Writer.openExistingOrNew
  cases hs : env.stat (w.filename sys) with
  | none =>
    cases ho : env.openFile (w.filename sys) appendFlags 0o644 with
    | error e =>
      simp [isNotExistOpt, OsCall.isWrite]
      intro c hc
      exact openNew_trace_no_write sys env w c hc
    | ok f => simp [isNotExistOpt, OsCall.isWrite]
  | some e2 =>
    cases hni : e2.isNotExist with
    | true =>
      simp [isNotExistOpt, hni, OsCall.isWrite]
      intro c hc
      exact openNew_trace_no_write sys env w c hc
    | false => simp [isNotExistOpt, hni, OsCall.isWrite]

/-!
Claim theorems.
-/

/-- Claim C2: when closing the currently open handle fails, Rotate
returns that close error wrapped with "close old file failed." and makes
no further OS call — in particular it does not attempt to open a new
file (the trace is exactly the failing close). -/
theorem rotate_close_fail_aborts (sys : Sys) (env : Env) (w : Writer)
    (f : Handle) (e : Err) (hf : w.file = some f)
    (he : env.closeFile f = some e) :
    (Writer.rotate sys env w).err = some (.wrap "close old file failed." e)
    ∧ (Writer.rotate sys env w).trace = [.closeFile f] := by
  simp only [Writer.rotate]
  unfold Writer.close
  simp [hf, he]

/-- Witness for C2: a writer with handle 3 open, in an environment whose
close fails with OS error 5. -/
theorem rotate_close_fail_aborts_witness :
    wOpen.file = some 3 ∧ envCloseFail.closeFile 3 = some (.os 5)
    ∧ ((Writer.rotate sys0 envCloseFail wOpen).err
          = some (.wrap "close old file failed." (.os 5))
       ∧ (Writer.rotate sys0 envCloseFail wOpen).trace = [.closeFile 3]) :=
  ⟨rfl, rfl, rotate_close_fail_aborts sys0 envCloseFail wOpen 3 (.os 5) rfl rfl⟩

/-- Claim C5: Close of a writer with no open handle returns no error,
and whatever the starting state, a second Close right after a first one
returns no error. -/
theorem close_idempotent (env env2 : Env) (w : Writer) :
    (w.file = none → (Writer.Close env w).err = none)
    ∧ (Writer.Close env2 (Writer.Close env w).w).err = none := by
  constructor
  · intro h
    unfold Writer.Close
    rw [close_of_none env w h]
  · unfold Writer.Close
    rw [close_of_none env2 _ (close_file_none env w)]

/-- Witness for C5: two successive closes of an open writer in a healthy
environment; the closed-state clause is discharged on `wNone`. -/
theorem close_idempotent_witness :
    wNone.file = none
    ∧ ((wNone.file = none → (Writer.Close env0 wNone).err = none)
       ∧ (Writer.Close env0 (Writer.Close env0 wOpen).w).err = none) :=
  ⟨rfl, ⟨(close_idempotent env0 env0 wNone).1,
    (close_idempotent env0 env0 wOpen).2⟩⟩

/-- Claim C6: with a non-empty configured Filename the resolved path is
that Filename verbatim; with an empty Filename it is the temp directory
joined with the executable base name followed by "-zap.log". -/
theorem filename_resolution (sys : Sys) (w : Writer) :
    (w.Filename ≠ "" → Writer.filename sys w = w.Filename)
    ∧ (w.Filename = "" → Writer.filename sys w =
        sys.join sys.tempDir (sys.base sys.arg0 ++ "-zap.log")) := by
  unfold Writer.filename
  constructor <;> intro h <;> simp [h]

/-- Witness for C6: both branches at concrete writers under `sys0`. -/
theorem filename_resolution_witness :
    ("/var/log/app.log" ≠ "" ∧
      Writer.filename sys0 wNone = "/var/log/app.log")
    ∧ ((""  : String) = "" ∧
      Writer.filename sys0 ⟨"", none⟩ = "/tmp/myapp-zap.log") :=
  ⟨⟨by decide, (filename_resolution sys0 wNone).1 (by decide)⟩,
   ⟨rfl, (filename_resolution sys0 ⟨"", none⟩).2 rfl⟩⟩

/-- Claim C8: when no handle is open and stat fails with an error other
than not-exist, Write returns 0 and that stat error wrapped with "error
getting log file info", its trace is exactly the stat call (no open, no
create, no directory creation), and the writer is unchanged. -/
theorem write_stat_fail_early_return (sys : Sys) (env : Env) (w : Writer)
    (p : List Nat) (e : Err) (h0 : w.file = none)
    (hs : env.stat (Writer.filename sys w) = some e)
    (hn : e.isNotExist = false) :
    (Writer.Write sys env w p).n = 0
    ∧ (Writer.Write sys env w p).err
        = some (.wrap "error getting log file info" e)
    ∧ (Writer.Write sys env w p).trace = [.stat (Writer.filename sys w)]
    ∧ (Writer.Write sys env w p).w = w := by
  unfold Writer.Write
  unfold Writer.openExistingOrNew
  simp [h0, hs, isNotExistOpt, hn]

/-- Witness for C8: closed writer, stat failing with OS error 13. -/
theorem write_stat_fail_early_return_witness :
    wNone.file = none
    ∧ envStatFail.stat (Writer.filename sys0 wNone) = some (.os 13)
    ∧ (Err.os 13).isNotExist = false
    ∧ ((Writer.Write sys0 envStatFail wNone [1, 2]).n = 0
       ∧ (Writer.Write sys0 envStatFail wNone [1, 2]).err
           = some (.wrap "error getting log file info" (.os 13))
       ∧ (Writer.Write sys0 envStatFail wNone [1, 2]).trace
           = [.stat (Writer.filename sys0 wNone)]
       ∧ (Writer.Write sys0 envStatFail wNone [1, 2]).w = wNone) :=
  ⟨rfl, rfl, rfl,
    write_stat_fail_early_return sys0 envStatFail wNone [1, 2] (.os 13)
      rfl rfl rfl⟩

/-- Claim C10: no operation mutates the configured target path: after
Write, Close or Rotate the `Filename` field equals its prior value. -/
theorem filename_frame (sys : Sys) (env : Env) (w : Writer)
    (p : List Nat) :
    (Writer.Write sys env w p).w.Filename = w.Filename
    ∧ (Writer.Close env w).w.Filename = w.Filename
    ∧ (Writer.Rotate sys env w).w.Filename = w.Filename := by
  refine ⟨?_, close_Filename env w, ?_⟩
  · unfold Writer.Write
    cases hf : w.file with
    | some f => simp [hf]
    | none =>
      cases he : (Writer.openExistingOrNew sys env w
          (List.length p)).err with
      | some e => simp [hf, he, openEON_Filename]
      | none =>
        cases hg : (Writer.openExistingOrNew sys env w
            (List.length p)).w.file with
        | some f => simp [hf, he, hg, openEON_Filename]
        | none => simp [hf, he, hg, openEON_Filename]
  · unfold Writer.Rotate
    simp only [Writer.rotate]
    cases he : (Writer.close env w).err with
    | some e => simp [he, close_Filename]
    | none =>
      cases h2 : ((Writer.close env w).w.openNew sys env).err with
      | some e =>
        simp only [he, h2]
        rw [openNew_Filename, close_Filename]
      | none =>
        simp only [he, h2]
        rw [openNew_Filename, close_Filename]

/-- Claim C9: every Close leaves the handle absent, even when the OS
close failed, so a failed Close cannot be retried (the next Close
returns nil); and a Rotate whose close step fails also leaves the
handle absent. -/
theorem close_always_clears_handle (sys : Sys) (env env2 : Env)
    (w : Writer) :
    (Writer.Close env w).w.file = none
    ∧ (Writer.Close env2 (Writer.Close env w).w).err = none
    ∧ (∀ f e, w.file = some f → env.closeFile f = some e →
        (Writer.Rotate sys env w).w.file = none) := by
  refine ⟨close_file_none env w, ?_, ?_⟩
  · unfold Writer.Close
    rw [close_of_none env2 _ (close_file_none env w)]
  · intro f e hf he
    unfold Writer.Rotate
    simp only [Writer.rotate]
    unfold Writer.close
    simp [hf, he]

/-- Witness for C9: handle 3 open, close failing with OS error 5; the
handle is gone afterward both for Close and for Rotate. -/
theorem close_always_clears_handle_witness :
    wOpen.file = some 3 ∧ envCloseFail.closeFile 3 = some (.os 5)
    ∧ (Writer.Close envCloseFail wOpen).w.file = none
    ∧ (Writer.Rotate sys0 envCloseFail wOpen).w.file = none :=
  ⟨rfl, rfl,
    (close_always_clears_handle sys0 envCloseFail env0 wOpen).1,
    (close_always_clears_handle sys0 envCloseFail env0 wOpen).2.2 3 (.os 5)
      rfl rfl⟩

/-- Claim C7: the handle state machine.  A successful Close leaves no
handle; a successful Rotate leaves exactly the handle the create-mode
open of the target path returned; a Write from the no-handle state whose
open step succeeds holds the one handle that step installed; a Write
with a handle open reuses it and changes nothing. -/
theorem handle_state_machine (sys : Sys) (env : Env) (w : Writer)
    (p : List Nat) :
    ((Writer.Close env w).err = none → (Writer.Close env w).w.file = none)
    ∧ ((Writer.Rotate sys env w).err = none →
        ∃ f, (Writer.Rotate sys env w).w.file = some f ∧
          env.openFile (Writer.filename sys w) createFlags 0o644 = .ok f)
    ∧ (w.file = none →
        (Writer.openExistingOrNew sys env w p.length).err = none →
        (Writer.Write sys env w p).w.file
          = (Writer.openExistingOrNew sys env w p.length).w.file
        ∧ ∃ f, (Writer.Write sys env w p).w.file = some f)
    ∧ (∀ f, w.file = some f → (Writer.Write sys env w p).w = w) := by
  refine ⟨fun _ => close_file_none env w, ?_, ?_, ?_⟩
  · unfold Writer.Rotate
    simp only [Writer.rotate]
    cases he : (Writer.close env w).err with
    | some e => simp
    | none =>
      cases h2 : ((Writer.close env w).w.openNew sys env).err with
      | some e => simp
      | none =>
        intro _
        obtain ⟨f, hf, ho⟩ := openNew_ok_file sys env _ h2
        refine ⟨f, by simpa using hf, ?_⟩
        rwa [filename_congr sys (Writer.close env w).w w
          (close_Filename env w)] at ho
  · intro h0 he
    obtain ⟨f, hf⟩ := openEON_ok_file sys env w p.length he
    unfold Writer.Write
    refine ⟨?_, f, ?_⟩ <;> simp [h0, he, hf]
  · intro f hf
    unfold Writer.Write
    simp [hf]

/-- Witness for C7: a successful Rotate from the closed state yields the
created handle; a Write with handle 3 open leaves the state unchanged;
a Write from the closed state holds the handle its open step installed. -/
theorem handle_state_machine_witness :
    ((Writer.Rotate sys0 env0 wNone).err = none
      ∧ ∃ f, (Writer.Rotate sys0 env0 wNone).w.file = some f ∧
          env0.openFile (Writer.filename sys0 wNone) createFlags 0o644
            = .ok f)
    ∧ (wNone.file = none
      ∧ (Writer.openExistingOrNew sys0 env0 wNone
          (List.length [1, 2])).err = none
      ∧ ((Writer.Write sys0 env0 wNone [1, 2]).w.file
            = (Writer.openExistingOrNew sys0 env0 wNone
                (List.length [1, 2])).w.file
         ∧ ∃ f, (Writer.Write sys0 env0 wNone [1, 2]).w.file = some f))
    ∧ (wOpen.file = some 3 ∧ (Writer.Write sys0 env0 wOpen [1, 2]).w = wOpen) :=
  ⟨⟨rfl, (handle_state_machine sys0 env0 wNone [1, 2]).2.1 rfl⟩,
   ⟨rfl, rfl, (handle_state_machine sys0 env0 wNone [1, 2]).2.2.1 rfl rfl⟩,
   ⟨rfl, (handle_state_machine sys0 env0 wOpen [1, 2]).2.2.2 3 rfl⟩⟩

/-- Claim C3: when no handle is open, the target exists (stat succeeds)
and the append-mode open fails, the open step behaves exactly as the
create-new step would: same resulting writer, same error (the append
failure is swallowed, an error surfaces only if creation also fails),
with the failed append attempt recorded before the create attempt; and
Write then returns that creation error, or — when creation succeeded —
only the underlying write error. -/
theorem write_append_fail_falls_back (sys : Sys) (env : Env) (w : Writer)
    (p : List Nat) (e : Err) (h0 : w.file = none)
    (hs : env.stat (Writer.filename sys w) = none)
    (ha : env.openFile (Writer.filename sys w) appendFlags 0o644
        = .error e) :
    (Writer.openExistingOrNew sys env w p.length).w
        = (Writer.openNew sys env w).w
    ∧ (Writer.openExistingOrNew sys env w p.length).err
        = (Writer.openNew sys env w).err
    ∧ (Writer.openExistingOrNew sys env w p.length).trace
        = [.stat (Writer.filename sys w),
           .openFile (Writer.filename sys w) appendFlags 0o644]
          ++ (Writer.openNew sys env w).trace
    ∧ (∀ e2, (Writer.openNew sys env w).err = some e2 →
        (Writer.Write sys env w p).n = 0
        ∧ (Writer.Write sys env w p).err = some e2)
    ∧ ((Writer.openNew sys env w).err = none → ∀ f,
        (Writer.openNew sys env w).w.file = some f →
        (Writer.Write sys env w p).err = (env.writeFile f p).2) := by
  have hEON : Writer.openExistingOrNew sys env w p.length
      = ⟨(Writer.openNew sys env w).w, (Writer.openNew sys env w).err,
          [.stat (Writer.filename sys w),
           .openFile (Writer.filename sys w) appendFlags 0o644]
            ++ (Writer.openNew sys env w).trace⟩ := by
    unfold Writer.openExistingOrNew
    simp [hs, isNotExistOpt, ha]
  refine ⟨by rw [hEON], by rw [hEON], by rw [hEON], ?_, ?_⟩
  · intro e2 he2
    unfold Writer.Write
    simp [h0, hEON, he2]
  · intro hko f hf
    unfold Writer.Write
    simp [h0, hEON, hko, hf]

/-- Witness for C3: the target exists but its append-mode open fails
with OS error 13; the create-mode open succeeds with handle 9, so Write
succeeds and reports only the underlying write outcome. -/
theorem write_append_fail_falls_back_witness :
    wNone.file = none
    ∧ envAppendFail.stat (Writer.filename sys0 wNone) = none
    ∧ envAppendFail.openFile (Writer.filename sys0 wNone) appendFlags 0o644
        = .error (.os 13)
    ∧ (Writer.openExistingOrNew sys0 envAppendFail wNone
          (List.length [1, 2])).err
        = (Writer.openNew sys0 envAppendFail wNone).err :=
  ⟨rfl, rfl, rfl,
    (write_append_fail_falls_back sys0 envAppendFail wNone [1, 2] (.os 13)
      rfl rfl rfl).2.1⟩

/-- Claim C4: when the open step fails Write returns `(0, that error)`
and no handle is open afterward; when the open step succeeds, or a
handle was already open, Write returns the underlying OS write's count
and error verbatim; and no Write trace holds more than one underlying
write call (no internal retry). -/
theorem write_error_and_passthrough (sys : Sys) (env : Env) (w : Writer)
    (p : List Nat) :
    (∀ e, w.file = none →
        (Writer.openExistingOrNew sys env w p.length).err = some e →
        (Writer.Write sys env w p).n = 0
        ∧ (Writer.Write sys env w p).err = some e
        ∧ (Writer.Write sys env w p).w.file = none)
    ∧ (∀ f, w.file = none →
        (Writer.openExistingOrNew sys env w p.length).err = none →
        (Writer.openExistingOrNew sys env w p.length).w.file = some f →
        (Writer.Write sys env w p).n = (env.writeFile f p).1
        ∧ (Writer.Write sys env w p).err = (env.writeFile f p).2)
    ∧ (∀ f, w.file = some f →
        (Writer.Write sys env w p).n = (env.writeFile f p).1
        ∧ (Writer.Write sys env w p).err = (env.writeFile f p).2)
    ∧ (Writer.Write sys env w p).trace.countP (fun c => c.isWrite) ≤ 1 := by
  have hzero : ∀ (tr : List OsCall), (∀ c ∈ tr, c.isWrite = false) →
      tr.countP (fun c => c.isWrite) = 0 := by
    intro tr h
    apply List.countP_eq_zero.mpr
    intro a ha
    simp [h a ha]
  refine ⟨?_, ?_, ?_, ?_⟩
  · intro e h0 he
    have hw := openEON_err_unchanged sys env w p.length e he
    unfold Writer.Write
    simp [h0, he, hw]
  · intro f h0 he hf
    unfold Writer.Write
    simp [h0, he, hf]
  · intro f hf
    unfold Writer.Write
    simp [hf]
  · unfold Writer.Write
    cases hf : w.file with
    | some f => simp [OsCall.isWrite]
    | none =>
      cases he : (Writer.openExistingOrNew sys env w (List.length p)).err with
      | some e =>
        simp only [he]
        rw [hzero _ (openEON_trace_no_write sys env w (List.length p))]
        exact Nat.zero_le 1
      | none =>
        cases hg : (Writer.openExistingOrNew sys env w
            (List.length p)).w.file with
        | some f =>
          simp only [he, hg, List.countP_append]
          rw [hzero _ (openEON_trace_no_write sys env w (List.length p))]
          simp [OsCall.isWrite]
        | none =>
          simp only [he, hg]
          rw [hzero _ (openEON_trace_no_write sys env w (List.length p))]
          exact Nat.zero_le 1

/-- Witness for C4: with every open failing, Write returns 0 with the
wrapped creation error and stays closed; with handle 3 already open in
a healthy environment, Write returns the OS write's pair verbatim. -/
theorem write_error_and_passthrough_witness :
    wNone.file = none
    ∧ (Writer.openExistingOrNew sys0 envOpenFail wNone
          (List.length [1, 2])).err
        = some (.wrap "can't open new logfile" (.os 13))
    ∧ ((Writer.Write sys0 envOpenFail wNone [1, 2]).n = 0
       ∧ (Writer.Write sys0 envOpenFail wNone [1, 2]).err
           = some (.wrap "can't open new logfile" (.os 13))
       ∧ (Writer.Write sys0 envOpenFail wNone [1, 2]).w.file = none)
    ∧ ((Writer.Write sys0 env0 wOpen [1, 2]).n = (env0.writeFile 3 [1, 2]).1
       ∧ (Writer.Write sys0 env0 wOpen [1, 2]).err
           = (env0.writeFile 3 [1, 2]).2) :=
  ⟨rfl, rfl,
    (write_error_and_passthrough sys0 envOpenFail wNone [1, 2]).1
      (.wrap "can't open new logfile" (.os 13)) rfl rfl,
    (write_error_and_passthrough sys0 env0 wOpen [1, 2]).2.2.1 3 rfl⟩

/-- With a successful close step, a rotate trace is the close trace
followed by the `openNew` trace. -/
theorem rotate_trace_of_close_ok (sys : Sys) (env : Env) (w : Writer)
    (h : (Writer.close env w).err = none) :
    (Writer.rotate sys env w).trace =
      (Writer.close env w).trace
        ++ ((Writer.close env w).w.openNew sys env).trace := by
  simp only [Writer.rotate]
  rw [h]
  cases h2 : ((Writer.close env w).w.openNew sys env).err <;> simp [h2]

/-- With a successful close step, rotate succeeds exactly when its
`openNew` step does. -/
theorem rotate_err_of_close_ok (sys : Sys) (env : Env) (w : Writer)
    (h : (Writer.close env w).err = none) :
    ((Writer.rotate sys env w).err = none ↔
      ((Writer.close env w).w.openNew sys env).err = none) := by
  simp only [Writer.rotate]
  rw [h]
  cases h2 : ((Writer.close env w).w.openNew sys env).err <;> simp [h2]

/-- Claim C1 (amended): when the close step succeeds (or no handle was
open), every open Rotate attempts is the create-branch open of the
resolved target path — flags `O_CREATE|O_WRONLY|O_APPEND`, which create
the file if absent but open an existing file for append without
truncating it — and a successful Rotate records exactly that open; the
append-reuse branch (a stat followed by an `O_APPEND|O_WRONLY`-only
open) is never attempted. -/
theorem rotate_create_branch_only (sys : Sys) (env : Env) (w : Writer)
    (h : (Writer.close env w).err = none) :
    (∀ c ∈ (Writer.rotate sys env w).trace, c.isOpen = true →
        c = .openFile (Writer.filename sys w) createFlags 0o644)
    ∧ createFlags.create = true ∧ createFlags.append = true
    ∧ createFlags.trunc = false
    ∧ ((Writer.rotate sys env w).err = none →
        OsCall.openFile (Writer.filename sys w) createFlags 0o644
          ∈ (Writer.rotate sys env w).trace) := by
  have hfn : Writer.filename sys (Writer.close env w).w
      = Writer.filename sys w :=
    filename_congr sys _ w (close_Filename env w)
  refine ⟨?_, rfl, rfl, rfl, ?_⟩
  · intro c hc hopen
    rw [rotate_trace_of_close_ok sys env w h] at hc
    rcases List.mem_append.mp hc with hm | hm
    · exact absurd hopen (by simp [close_trace_no_open env w c hm])
    · rw [← hfn]
      exact openNew_trace_opens sys env _ c hm hopen
  · intro hr
    rw [rotate_trace_of_close_ok sys env w h]
    apply List.mem_append_right
    rw [← hfn]
    exact openNew_ok_trace_mem sys env _
      ((rotate_err_of_close_ok sys env w h).mp hr)

/-- Witness for C1 (amended): rotating an open writer in a healthy
environment; the close step succeeds and the only open attempted is the
create-branch open of the target path. -/
theorem rotate_create_branch_only_witness :
    (Writer.close env0 wOpen).err = none
    ∧ (∀ c ∈ (Writer.rotate sys0 env0 wOpen).trace, c.isOpen = true →
        c = .openFile (Writer.filename sys0 wOpen) createFlags 0o644)
    ∧ ((Writer.rotate sys0 env0 wOpen).err = none →
        OsCall.openFile (Writer.filename sys0 wOpen) createFlags 0o644
          ∈ (Writer.rotate sys0 env0 wOpen).trace) :=
  ⟨rfl, (rotate_create_branch_only sys0 env0 wOpen rfl).1,
    (rotate_create_branch_only sys0 env0 wOpen rfl).2.2.2.2⟩

/-- Counterexample for C1 as stated: rotating a writer whose target file
already exists with content `[1, 2, 3]` succeeds (the close step
succeeds), yet replaying the rotate trace on that filesystem leaves the
old content in place — the open appends rather than creating or
truncating a fresh file, because `openNew` sets no `O_TRUNC` and the old
file is neither renamed nor removed. -/
theorem rotate_existing_file_not_fresh :
    (Writer.close env0 wOpen).err = none
    ∧ (Writer.rotate sys0 env0 wOpen).err = none
    ∧ fsGet (runTrace [("/var/log/app.log", [1, 2, 3])]
        (Writer.rotate sys0 env0 wOpen).trace) "/var/log/app.log"
        = some [1, 2, 3]
    ∧ [1, 2, 3] ≠ ([] : List Nat) := by
  refine ⟨rfl, rfl, rfl, by decide⟩

end Zaphelper
